import Mathlib

/-!
Verification of the scroll-progress-to-animation-state mapping of the
`3d-can-webflow` repository (`js/scene.js`).

JavaScript numbers are modelled as exact rationals (`ℚ`); the constant
`Math.PI` is modelled as the exact rational value of the IEEE-754 double
closest to π, which is what the JavaScript engine computes with.
Decimal literals such as `0.05` denote exact rationals here, matching the
decimal constants written in the source.
-/

namespace Scene

/-- Clamp a rational to the interval `[0,1]`, written in the source as
`Math.max(0, Math.min(1, x))`. -/
def clampQ (x : ℚ) : ℚ := max 0 (min 1 x)

/-- Modelled from the spec (§4.1): the contract
`clamp((progress - window.start) / (window.end - window.start), 0, 1)`.
This is the spec-side definition, to be compared with each sub-progress
the source derives. -/
def specWindowProgress (p s e : ℚ) : ℚ := clampQ ((p - s) / (e - s))

/-! ## Animation rules of the main pinned ScrollTrigger (`scene.js` lines 872-1063) -/

/-- Entrance sub-progress of the main scroll handler:
`Math.max(0, Math.min(1, progress / 0.05))` (scene.js line 898). -/
def entranceProgressMain (p : ℚ) : ℚ := max 0 (min 1 (p / 0.05))

/-- Model y-position written by the main scroll handler (scene.js lines 899-900):
`finalModelPosition.y - (1 - entranceProgress) * modelSize.y * 1.5`. -/
def entranceYMain (finalY sizeY p : ℚ) : ℚ :=
  finalY - (1 - entranceProgressMain p) * sizeY * 1.5

/-- Model container sub-progress:
`Math.max(0, Math.min(1, (progress - 0.06) / 0.04))` (scene.js line 916). -/
def modelProgress (p : ℚ) : ℚ := max 0 (min 1 ((p - 0.06) / 0.04))

/-- Model container scale (scene.js line 917):
`progress < 0.15 ? 0.8 : 0.8 + 0.2 * modelProgress`. -/
def modelScale (p : ℚ) : ℚ := if p < 0.15 then 0.8 else 0.8 + 0.2 * modelProgress p

/-- Header-1 sub-progress:
`Math.max(0, Math.min(1, (progress - 0.12) / 0.13))` (scene.js line 948). -/
def headerProgress (p : ℚ) : ℚ := max 0 (min 1 ((p - 0.12) / 0.13))

/-- Header-1 x offset in percent (scene.js lines 950-955). -/
def header1XPercent (p : ℚ) : ℚ :=
  if p < 0.08 then 0 else if p > 0.3 then -100 else -100 * headerProgress p

/-- Circular mask radius in percent (scene.js lines 967-972):
0 before 20%, 100 after 28%, `100 * (progress - 0.2) / 0.08` in between. -/
def maskSize (p : ℚ) : ℚ :=
  if p < 0.2 then 0 else if p > 0.28 then 100 else 100 * (p - 0.2) / 0.08

/-- Header-2 x offset in percent (scene.js lines 987-996): 100 before 18%,
-100 after 35%, sliding `100 - 200 * (progress - 0.18) / 0.17` in between. -/
def header2XPercent (p : ℚ) : ℚ :=
  if p < 0.18 then 100
  else if p > 0.35 then -100
  else 100 - 200 * ((p - 0.18) / 0.17)

/-- Header-2 color sub-progress (scene.js lines 1050-1055): 0 before 18%,
1 after 24%, `(progress - 0.18) / 0.06` in between. -/
def headerColorProgress (p : ℚ) : ℚ :=
  if p < 0.18 then 0 else if p > 0.24 then 1 else (p - 0.18) / 0.06

/-- Header-2 grayscale channel value (scene.js line 1057):
`Math.round(255 * (1 - colorProgress))`; `Math.round x = ⌊x + 1/2⌋`. -/
def headerColorValue (p : ℚ) : ℤ := round ((255 : ℚ) * (1 - headerColorProgress p))

/-! ## Logo color transition (`scene.js` lines 276-295, logo ScrollTrigger) -/

/-- Logo transition sub-progress (scene.js line 279):
`(progress - 0.2) / 0.01`, gated on `0.2 <= progress <= 0.28`. -/
def logoTransitionProgress (p : ℚ) : ℚ := (p - 0.2) / 0.01

/-- Logo grayscale channel value (scene.js lines 278-295): inside the gate
`Math.round(255 * (1 - transitionProgress))`; black after 28%, white before 20%. -/
def logoColorValue (p : ℚ) : ℤ :=
  if 0.2 ≤ p ∧ p ≤ 0.28 then round ((255 : ℚ) * (1 - logoTransitionProgress p))
  else if 0.28 < p then 0
  else 255

/-! ## Helper lemmas about `clampQ` -/

lemma clampQ_of_nonpos {x : ℚ} (h : x ≤ 0) : clampQ x = 0 := by
  unfold clampQ
  rw [min_eq_right (le_trans h (by norm_num)), max_eq_left h]

lemma clampQ_of_one_le {x : ℚ} (h : 1 ≤ x) : clampQ x = 1 := by
  unfold clampQ
  rw [min_eq_left h, max_eq_right (by norm_num)]

lemma clampQ_of_mem {x : ℚ} (h0 : 0 ≤ x) (h1 : x ≤ 1) : clampQ x = x := by
  unfold clampQ
  rw [min_eq_right h1, max_eq_right h0]

lemma clampQ_nonneg (x : ℚ) : 0 ≤ clampQ x := le_max_left 0 _

lemma clampQ_le_one (x : ℚ) : clampQ x ≤ 1 :=
  max_le (by norm_num) (min_le_left 1 x)

lemma clampQ_mono {x y : ℚ} (h : x ≤ y) : clampQ x ≤ clampQ y :=
  max_le_max le_rfl (min_le_min le_rfl h)

lemma specWindowProgress_nonneg (p s e : ℚ) : 0 ≤ specWindowProgress p s e :=
  clampQ_nonneg _

lemma specWindowProgress_le_one (p s e : ℚ) : specWindowProgress p s e ≤ 1 :=
  clampQ_le_one _

lemma specWindowProgress_mono {s e : ℚ} (hse : s < e) {p q : ℚ} (hpq : p ≤ q) :
    specWindowProgress p s e ≤ specWindowProgress q s e := by
  unfold specWindowProgress
  apply clampQ_mono
  have hpos : (0 : ℚ) < e - s := by linarith
  exact (div_le_div_iff_of_pos_right hpos).mpr (by linarith)

/-! ## Rotation machinery (`scene.js` lines 1029-1041)

The source keeps a mutable tracker `currentRotation` (initialised to 0) and on
every update computes `targetRotation = Math.PI * 8 * progress`; the difference
is applied to the model (about the fixed axis `(0, 1, 0)`) and the tracker
advanced only when `Math.abs(rotationDiff) > 0.001`.  Since the model starts
unrotated and every applied delta also advances the tracker by the same
amount, the tracker equals the model's accumulated rotation angle. -/

/-- Exact rational value of the IEEE-754 double `Math.PI`
(`884279719003555 / 2^48`). -/
def mathPI : ℚ := 884279719003555 / 281474976710656

/-- Rotation target: `Math.PI * 8 * progress` (scene.js line 1031). -/
def targetRotation (p : ℚ) : ℚ := mathPI * 8 * p

/-- Jitter threshold `0.001` of scene.js line 1037. -/
def rotEps : ℚ := 0.001

/-- Fixed rotation axis `new THREE.Vector3(0, 1, 0)` (scene.js line 1038). -/
def rotationAxis : ℚ × ℚ × ℚ := (0, 1, 0)

/-- One rotation update step: advance the accumulated rotation to the target
only when the delta exceeds the epsilon threshold (scene.js lines 1034-1040). -/
def rotStep (c p : ℚ) : ℚ :=
  if rotEps < |targetRotation p - c| then targetRotation p else c

/-- Accumulated rotation after delivering a sequence of progress updates,
starting from the initial tracker value 0. -/
def rotRun (l : List ℚ) : ℚ := l.foldl rotStep 0

/-- The progress sequence `1/1000, 2/1000, …, n/1000` of equal increments,
used to deliver the full range in many small updates. -/
def incList : ℕ → List ℚ
  | 0 => []
  | n + 1 => incList n ++ [((n + 1 : ℕ) : ℚ) / 1000]

lemma rotStep_close (c p : ℚ) : |rotStep c p - targetRotation p| ≤ rotEps := by
  unfold rotStep
  split
  · rw [sub_self, abs_zero]
    unfold rotEps
    norm_num
  · rw [abs_sub_comm]
    linarith [not_lt.mp (by assumption : ¬ rotEps < |targetRotation p - c|)]

lemma rotStep_of_small {c p : ℚ} (h : |targetRotation p - c| ≤ rotEps) :
    rotStep c p = c := by
  unfold rotStep
  rw [if_neg (not_lt.mpr h)]

lemma rotStep_of_large {c p : ℚ} (h : rotEps < |targetRotation p - c|) :
    rotStep c p = targetRotation p := by
  unfold rotStep
  rw [if_pos h]

lemma rotRun_append_close (l : List ℚ) (p : ℚ) :
    |rotRun (l ++ [p]) - targetRotation p| ≤ rotEps := by
  unfold rotRun
  rw [List.foldl_append]
  exact rotStep_close _ p

lemma rotRun_incList (n : ℕ) :
    rotRun (incList (n + 1)) = targetRotation (((n + 1 : ℕ) : ℚ) / 1000) := by
  induction n with
  | zero =>
    show rotStep 0 (((1 : ℕ) : ℚ) / 1000) = targetRotation (((1 : ℕ) : ℚ) / 1000)
    apply rotStep_of_large
    rw [sub_zero]
    unfold targetRotation rotEps mathPI
    rw [Nat.cast_one, abs_of_pos (by norm_num)]
    norm_num
  | succ m ih =>
    have hstep : incList (m + 2) =
        incList (m + 1) ++ [((m + 2 : ℕ) : ℚ) / 1000] := rfl
    rw [hstep]
    unfold rotRun at ih ⊢
    rw [List.foldl_append, ih]
    show rotStep (targetRotation (((m + 1 : ℕ) : ℚ) / 1000))
        (((m + 2 : ℕ) : ℚ) / 1000) = _
    apply rotStep_of_large
    have harg : targetRotation (((m + 2 : ℕ) : ℚ) / 1000) -
        targetRotation (((m + 1 : ℕ) : ℚ) / 1000) = mathPI * 8 / 1000 := by
      unfold targetRotation
      push_cast
      ring
    rw [harg, abs_of_pos (by unfold mathPI; norm_num)]
    unfold rotEps mathPI
    norm_num

/-! ## Model geometry, load path and resize path
(`scene.js` lines 642-657, 666-726, 745-797, 834-847) -/

/-- Vertical geometry cached once the model has loaded: `finalModelPosition.y`
and `modelSize.y`. -/
structure ModelGeom where
  finalY : ℚ
  sizeY : ℚ
deriving DecidableEq

/-- Entrance start position computed in `setupModel` (scene.js line 697):
`startPositionY = newPositionY - modelSize.y * 1.5`. -/
def startPositionY (finalY sizeY : ℚ) : ℚ := finalY - sizeY * 1.5

/-- Model y after the GLTF load success callback (scene.js lines 745-797):
the callback calls `setupModel()`, which sets the y coordinate to
`startPositionY`; the current scroll progress `p` is not consulted. -/
def modelLoadY (finalY sizeY p : ℚ) : ℚ := startPositionY finalY sizeY

/-- Model y set by `applyEntranceAnimationState` (scene.js lines 642-657),
run by the resize handler: entrance window divisor `0.12`,
`finalModelPosition.y - (1 - entranceProgress) * modelSize.y * 1.5`. -/
def applyEntranceY (finalY sizeY p : ℚ) : ℚ :=
  finalY - (1 - max 0 (min 1 (p / 0.12))) * sizeY * 1.5

/-! ## The per-update state machine of the main scroll handler

`computeTargets` collects every target value the handler assigns purely from
the current progress (and the loaded geometry); `mainOnUpdate` additionally
threads the mutable trackers `currentRotation` and `currentScrollProgress`. -/

/-- Mutable state surviving between scroll updates: the rotation tracker
`currentRotation` and `currentScrollProgress` (scene.js lines 490-494). -/
structure UpdateState where
  currentRotation : ℚ
  currentScrollProgress : ℚ
deriving DecidableEq

/-- Initial state: both trackers start at 0 (scene.js lines 491-494). -/
def initState : UpdateState := { currentRotation := 0, currentScrollProgress := 0 }

/-- Target values assigned by one run of the main `onUpdate` handler
(scene.js lines 872-1063), excluding the rotation delta. -/
structure Targets where
  gradientOpacity : ℚ
  modelY : Option ℚ
  containerScale : ℚ
  header1X : ℚ
  maskPercent : ℚ
  header2X : ℚ
  header2Front : Bool
  header2Opacity : ℚ
  header2Color : ℤ
deriving DecidableEq

/-- All non-rotation target assignments of the main handler as a function of
the loaded geometry and the current progress alone. -/
def computeTargets (g : Option ModelGeom) (p : ℚ) : Targets :=
  { gradientOpacity := if 0.08 ≤ p then 0 else 1
    modelY := g.map (fun m => entranceYMain m.finalY m.sizeY p)
    containerScale := modelScale p
    header1X := header1XPercent p
    maskPercent := maskSize p
    header2X := header2XPercent p
    header2Front := decide (0.18 ≤ p)
    header2Opacity := if 0.18 ≤ p then 1 else 0
    header2Color := headerColorValue p }

/-- Rotation tracker step, guarded on model presence (`if (model)` at
scene.js line 1029). -/
def rotStepOpt (g : Option ModelGeom) (c p : ℚ) : ℚ :=
  if g.isSome then rotStep c p else c

/-- One run of the main `onUpdate` handler: new mutable state plus the
computed target values. -/
def mainOnUpdate (g : Option ModelGeom) (st : UpdateState) (p : ℚ) :
    UpdateState × Targets :=
  ({ currentRotation := rotStepOpt g st.currentRotation p,
     currentScrollProgress := p },
   computeTargets g p)

/-- Mutable state after delivering a sequence of progress updates from the
initial state. -/
def runMain (g : Option ModelGeom) (l : List ℚ) : UpdateState :=
  l.foldl (fun st p => (mainOnUpdate g st p).1) initState

/-! ## Tooltip ScrollTriggers (`scene.js` lines 1073-1141)

The current source drives each tooltip timeline with discrete commands: the
`onUpdate` callback issues a fire-and-forget `timeline.play()` when progress
is inside `[0.45, 0.85]` and `timeline.reverse()` otherwise; the `onRefresh`
callback sets the head to exactly 1 when progress is inside `[0.35, 0.45]`
and to exactly 0 otherwise.  A GSAP `play()`/`reverse()` call starts a
wall-clock animation from the current head and changes no head position
synchronously, while `progress(q)` sets the head to `q` synchronously; this
external-timeline semantics is captured by `applyCmdSync`. -/

/-- Command issued to a tooltip timeline. -/
inductive TimelineCmd where
  | play
  | reverse
  | setHead (q : ℚ)
deriving DecidableEq

/-- Command the tooltip `onUpdate` callback issues (scene.js lines 1088-1098):
`progress >= 0.45 && progress <= 0.85 ? play : reverse`. -/
def tooltipCmd (p : ℚ) : TimelineCmd :=
  if 0.45 ≤ p ∧ p ≤ 0.85 then TimelineCmd.play else TimelineCmd.reverse

/-- Head value the tooltip `onRefresh` callback sets (scene.js lines
1102-1110): `timeline.progress(1)` inside `[0.35, 0.45]`, else
`timeline.progress(0)`. -/
def tooltipRefreshHead (p : ℚ) : ℚ :=
  if 0.35 ≤ p ∧ p ≤ 0.45 then 1 else 0

/-- Synchronous effect of a timeline command on the head position:
`play`/`reverse` are fire-and-forget and leave the head unchanged at call
time; `setHead q` moves it to `q` immediately. -/
def applyCmdSync (head : ℚ) : TimelineCmd → ℚ
  | TimelineCmd.play => head
  | TimelineCmd.reverse => head
  | TimelineCmd.setHead q => q

/-! ## Each main-handler rule derives its sub-progress by the clamp formula -/

lemma entranceProgressMain_eq (p : ℚ) :
    entranceProgressMain p = specWindowProgress p 0 0.05 := by
  unfold entranceProgressMain specWindowProgress clampQ
  norm_num

lemma modelProgress_eq (p : ℚ) :
    modelProgress p = specWindowProgress p 0.06 0.10 := by
  unfold modelProgress specWindowProgress clampQ
  norm_num

lemma headerProgress_eq (p : ℚ) :
    headerProgress p = specWindowProgress p 0.12 0.25 := by
  unfold headerProgress specWindowProgress clampQ
  norm_num

lemma maskSize_eq (p : ℚ) : maskSize p = 100 * specWindowProgress p 0.2 0.28 := by
  unfold maskSize specWindowProgress
  rcases lt_or_le p 0.2 with h | h
  · have harg : (p - 0.2) / ((0.28 : ℚ) - 0.2) ≤ 0 := by
      rw [div_nonpos_iff]
      exact Or.inr ⟨by linarith, by norm_num⟩
    rw [if_pos h, clampQ_of_nonpos harg, mul_zero]
  · rw [if_neg (not_lt.mpr h)]
    rcases lt_or_le (0.28 : ℚ) p with h2 | h2
    · have harg : (1 : ℚ) ≤ (p - 0.2) / (0.28 - 0.2) :=
        (one_le_div (by norm_num)).mpr (by linarith)
      rw [if_pos h2, clampQ_of_one_le harg, mul_one]
    · have h0 : (0 : ℚ) ≤ (p - 0.2) / (0.28 - 0.2) :=
        div_nonneg (by linarith) (by norm_num)
      have h1 : (p - 0.2) / ((0.28 : ℚ) - 0.2) ≤ 1 :=
        (div_le_one (by norm_num)).mpr (by linarith)
      rw [if_neg (not_lt.mpr h2), clampQ_of_mem h0 h1,
        show (0.28 : ℚ) - 0.2 = 0.08 by norm_num]
      ring

lemma header2XPercent_eq (p : ℚ) :
    header2XPercent p = 100 - 200 * specWindowProgress p 0.18 0.35 := by
  unfold header2XPercent specWindowProgress
  rcases lt_or_le p 0.18 with h | h
  · have harg : (p - 0.18) / ((0.35 : ℚ) - 0.18) ≤ 0 := by
      rw [div_nonpos_iff]
      exact Or.inr ⟨by linarith, by norm_num⟩
    rw [if_pos h, clampQ_of_nonpos harg]
    norm_num
  · rw [if_neg (not_lt.mpr h)]
    rcases lt_or_le (0.35 : ℚ) p with h2 | h2
    · have harg : (1 : ℚ) ≤ (p - 0.18) / (0.35 - 0.18) :=
        (one_le_div (by norm_num)).mpr (by linarith)
      rw [if_pos h2, clampQ_of_one_le harg]
      norm_num
    · have h0 : (0 : ℚ) ≤ (p - 0.18) / (0.35 - 0.18) :=
        div_nonneg (by linarith) (by norm_num)
      have h1 : (p - 0.18) / ((0.35 : ℚ) - 0.18) ≤ 1 :=
        (div_le_one (by norm_num)).mpr (by linarith)
      rw [if_neg (not_lt.mpr h2), clampQ_of_mem h0 h1,
        show (0.35 : ℚ) - 0.18 = 0.17 by norm_num]

lemma headerColorProgress_eq (p : ℚ) :
    headerColorProgress p = specWindowProgress p 0.18 0.24 := by
  unfold headerColorProgress specWindowProgress
  rcases lt_or_le p 0.18 with h | h
  · have harg : (p - 0.18) / ((0.24 : ℚ) - 0.18) ≤ 0 := by
      rw [div_nonpos_iff]
      exact Or.inr ⟨by linarith, by norm_num⟩
    rw [if_pos h, clampQ_of_nonpos harg]
  · rw [if_neg (not_lt.mpr h)]
    rcases lt_or_le (0.24 : ℚ) p with h2 | h2
    · have harg : (1 : ℚ) ≤ (p - 0.18) / (0.24 - 0.18) :=
        (one_le_div (by norm_num)).mpr (by linarith)
      rw [if_pos h2, clampQ_of_one_le harg]
    · have h0 : (0 : ℚ) ≤ (p - 0.18) / (0.24 - 0.18) :=
        div_nonneg (by linarith) (by norm_num)
      have h1 : (p - 0.18) / ((0.24 : ℚ) - 0.18) ≤ 1 :=
        (div_le_one (by norm_num)).mpr (by linarith)
      rw [if_neg (not_lt.mpr h2), clampQ_of_mem h0 h1,
        show (0.24 : ℚ) - 0.18 = 0.06 by norm_num]

/-- C1: every animation rule of the main pinned scroll handler derives its
sub-progress as `clamp((p - w.start) / (w.end - w.start), 0, 1)` for its
configured window; that value always lies in `[0,1]` and is monotone
non-decreasing in `p` for a fixed window with `start < end`.  The final three
conjuncts document the one deviation in the repository: the logo color rule,
whose window is `{start: 0.2, end: 0.28}`, derives `(p - 0.2) / 0.01` instead
(at `p = 0.205` it yields `1/2` where the contract requires `1/16`),
contradicting its own inline comment about spanning the 8% range. -/
theorem C1_subprogress_clamp :
    (∀ p, entranceProgressMain p = specWindowProgress p 0 0.05) ∧
    (∀ p, modelProgress p = specWindowProgress p 0.06 0.10) ∧
    (∀ p, headerProgress p = specWindowProgress p 0.12 0.25) ∧
    (∀ p, maskSize p = 100 * specWindowProgress p 0.2 0.28) ∧
    (∀ p, header2XPercent p = 100 - 200 * specWindowProgress p 0.18 0.35) ∧
    (∀ p, headerColorProgress p = specWindowProgress p 0.18 0.24) ∧
    (∀ p s e, 0 ≤ specWindowProgress p s e ∧ specWindowProgress p s e ≤ 1) ∧
    (∀ s e, s < e → ∀ p q, p ≤ q →
      specWindowProgress p s e ≤ specWindowProgress q s e) ∧
    logoTransitionProgress 0.205 = 1 / 2 ∧
    specWindowProgress 0.205 0.2 0.28 = 1 / 16 ∧
    logoTransitionProgress 0.205 ≠ specWindowProgress 0.205 0.2 0.28 := by
  refine ⟨entranceProgressMain_eq, modelProgress_eq, headerProgress_eq,
    maskSize_eq, header2XPercent_eq, headerColorProgress_eq,
    fun p s e => ⟨specWindowProgress_nonneg p s e, specWindowProgress_le_one p s e⟩,
    fun s e hse p q hpq => specWindowProgress_mono hse hpq, ?_, ?_, ?_⟩
  · unfold logoTransitionProgress
    norm_num
  · unfold specWindowProgress
    rw [clampQ_of_mem (by norm_num) (by norm_num)]
    norm_num
  · unfold logoTransitionProgress specWindowProgress
    rw [clampQ_of_mem (by norm_num) (by norm_num)]
    norm_num

/-- C1 witness: the monotonicity conjunct applied to the entrance window
`[0, 0.05]` at the concrete pair `0.01 ≤ 0.03`. -/
theorem C1_subprogress_clamp_witness :
    specWindowProgress 0.01 0 0.05 ≤ specWindowProgress 0.03 0 0.05 :=
  C1_subprogress_clamp.2.2.2.2.2.2.2.1 0 0.05 (by norm_num) 0.01 0.03 (by norm_num)

/-- C2: the rotation target is the constant multiple `8 * Math.PI` of the raw
(un-windowed) progress; a rotation delta is applied (about the fixed axis
`(0,1,0)`) only when it exceeds the `0.001` epsilon, and otherwise the tracker
is left untouched; every update sequence ending at `p` leaves the accumulated
rotation within epsilon of the closed form, and delivering progress `1` in one
jump or in 1000 equal increments both yield exactly `8π` — four full turns,
the configured constant. -/
theorem C2_rotation_telescopes :
    (∀ p, targetRotation p = 8 * mathPI * p) ∧
    rotationAxis = (0, 1, 0) ∧
    (∀ c p, |targetRotation p - c| ≤ rotEps → rotStep c p = c) ∧
    (∀ c p, rotEps < |targetRotation p - c| → rotStep c p = targetRotation p) ∧
    (∀ l p, |rotRun (l ++ [p]) - targetRotation p| ≤ rotEps) ∧
    rotRun [1] = 8 * mathPI ∧
    rotRun (incList 1000) = 8 * mathPI := by
  refine ⟨fun p => by unfold targetRotation; ring, rfl,
    fun c p h => rotStep_of_small h, fun c p h => rotStep_of_large h,
    rotRun_append_close, ?_, ?_⟩
  · show rotStep 0 1 = 8 * mathPI
    rw [rotStep_of_large (by
      rw [sub_zero]
      unfold targetRotation rotEps mathPI
      rw [abs_of_pos (by norm_num)]
      norm_num)]
    unfold targetRotation
    ring
  · rw [show (1000 : ℕ) = 999 + 1 from rfl, rotRun_incList 999]
    rw [show (((999 + 1 : ℕ) : ℚ)) / 1000 = 1 by norm_num]
    unfold targetRotation
    ring

/-- C2 witness: a sub-epsilon delta (progress `1/100000`, target about
`0.00025` rad) is skipped, and a super-epsilon delta (one jump to `1`) is
applied exactly. -/
theorem C2_rotation_telescopes_witness :
    rotStep 0 (1 / 100000) = 0 ∧ rotStep 0 1 = targetRotation 1 :=
  ⟨C2_rotation_telescopes.2.2.1 0 (1 / 100000) (by
      rw [sub_zero]
      unfold targetRotation rotEps mathPI
      rw [abs_of_pos (by norm_num)]
      norm_num),
   C2_rotation_telescopes.2.2.2.1 0 1 (by
      rw [sub_zero]
      unfold targetRotation rotEps mathPI
      rw [abs_of_pos (by norm_num)]
      norm_num)⟩

/-- C3 counterexample: delivering progress `1/2` and then `49999/100000` does
not leave the same state as delivering `49999/100000` alone — the rotation
tracker skips the final sub-epsilon delta and stays at the `1/2` rotation, so
the claimed history-free replay property is false as stated. -/
theorem C3_replay_counterexample :
    runMain (some ⟨0, 1⟩) [1 / 2, 49999 / 100000] ≠
      runMain (some ⟨0, 1⟩) [49999 / 100000] := by
  have e1 : rotStep 0 (1 / 2) = targetRotation (1 / 2) :=
    rotStep_of_large (by
      rw [sub_zero]
      unfold targetRotation rotEps mathPI
      rw [abs_of_pos (by norm_num)]
      norm_num)
  have e2 : rotStep (targetRotation (1 / 2)) (49999 / 100000) =
      targetRotation (1 / 2) :=
    rotStep_of_small (by
      have hd : targetRotation (49999 / 100000) - targetRotation (1 / 2) =
          -(mathPI / 12500) := by
        unfold targetRotation
        ring
      rw [hd, abs_neg, abs_of_pos (by unfold mathPI; norm_num)]
      unfold rotEps mathPI
      norm_num)
  have e3 : rotStep 0 (49999 / 100000) = targetRotation (49999 / 100000) :=
    rotStep_of_large (by
      rw [sub_zero]
      unfold targetRotation rotEps mathPI
      rw [abs_of_pos (by norm_num)]
      norm_num)
  intro h
  have hrot := congrArg UpdateState.currentRotation h
  have hL : (runMain (some ⟨0, 1⟩) [1 / 2, 49999 / 100000]).currentRotation =
      rotStep (rotStep 0 (1 / 2)) (49999 / 100000) := rfl
  have hR : (runMain (some ⟨0, 1⟩) [49999 / 100000]).currentRotation =
      rotStep 0 (49999 / 100000) := rfl
  rw [hL, hR, e1, e2, e3] at hrot
  unfold targetRotation mathPI at hrot
  norm_num at hrot

/-- C3 (amended): every target assignment of the main scroll handler other
than the rotation delta is a pure function of the current progress, so
replaying `p2` then `p1` produces exactly the targets of delivering `p1`
alone; the rotation tracker is history-dependent but always stays within
twice the `0.001` epsilon of the pure value. -/
theorem C3_pure_replay (g : Option ModelGeom) (p1 p2 : ℚ) :
    (mainOnUpdate g (runMain g [p2]) p1).2 = (mainOnUpdate g initState p1).2 ∧
    |(runMain g [p2, p1]).currentRotation - (runMain g [p1]).currentRotation| ≤
      2 * rotEps := by
  constructor
  · rfl
  · have hL : (runMain g [p2, p1]).currentRotation =
        rotStepOpt g (rotStepOpt g 0 p2) p1 := rfl
    have hR : (runMain g [p1]).currentRotation = rotStepOpt g 0 p1 := rfl
    rw [hL, hR]
    cases g with
    | none =>
      show |(0 : ℚ) - 0| ≤ 2 * rotEps
      rw [sub_self, abs_zero]
      unfold rotEps
      norm_num
    | some m =>
      show |rotStep (rotStep 0 p2) p1 - rotStep 0 p1| ≤ 2 * rotEps
      calc |rotStep (rotStep 0 p2) p1 - rotStep 0 p1| ≤
          |rotStep (rotStep 0 p2) p1 - targetRotation p1| +
            |targetRotation p1 - rotStep 0 p1| := abs_sub_le _ _ _
        _ ≤ rotEps + rotEps := add_le_add (rotStep_close _ p1)
            (by rw [abs_sub_comm]; exact rotStep_close 0 p1)
        _ = 2 * rotEps := by ring

/-! ## Rounding helpers for the color rules -/

lemma round_eval (x : ℚ) (z : ℤ) (h1 : (z : ℚ) ≤ x + 1 / 2)
    (h2 : x + 1 / 2 < z + 1) : round x = z := by
  rw [round_eq]
  exact Int.floor_eq_iff.mpr ⟨h1, h2⟩

lemma round_mem_0_255 {x : ℚ} (h0 : 0 ≤ x) (h1 : x ≤ 255) :
    0 ≤ round x ∧ round x ≤ 255 := by
  rw [round_eq]
  refine ⟨Int.le_floor.mpr (by push_cast; linarith), ?_⟩
  have hlt : ⌊x + 1 / 2⌋ < 256 := Int.floor_lt.mpr (by push_cast; linarith)
  omega

lemma headerColorProgress_mem (p : ℚ) :
    0 ≤ headerColorProgress p ∧ headerColorProgress p ≤ 1 := by
  unfold headerColorProgress
  rcases lt_or_le p 0.18 with h | h
  · rw [if_pos h]
    norm_num
  · rw [if_neg (not_lt.mpr h)]
    rcases lt_or_le (0.24 : ℚ) p with h2 | h2
    · rw [if_pos h2]
      norm_num
    · rw [if_neg (not_lt.mpr h2)]
      exact ⟨div_nonneg (by linarith) (by norm_num),
        (div_le_one (by norm_num)).mpr (by linarith)⟩

/-- C4: the header-2 color transition maps its `[0.18, 0.24]` window exactly
as specified — all three channels `round(255 * (1 - t))`, white at the start,
`128` at the midpoint (round-half-up), black at the end, always inside
`[0, 255]` — but the logo color transition over its `[0.2, 0.28]` window is
broken: its comment promises `0 to 1 over the 8% range`, yet the code divides
by `0.01`, so at the window midpoint `p = 0.24` the channel value is `-765`
instead of `128` or `127` (negative, far outside `[0, 255]`). -/
theorem C4_color_channels :
    headerColorValue 0.18 = 255 ∧
    headerColorValue 0.21 = 128 ∧
    headerColorValue 0.24 = 0 ∧
    (∀ p, 0 ≤ headerColorValue p ∧ headerColorValue p ≤ 255) ∧
    logoColorValue 0.2 = 255 ∧
    logoColorValue 0.24 = -765 ∧
    logoColorValue 0.24 < 0 := by
  have ht18 : headerColorProgress 0.18 = 0 := by
    unfold headerColorProgress
    rw [if_neg (by norm_num), if_neg (by norm_num)]
    norm_num
  have ht21 : headerColorProgress 0.21 = 1 / 2 := by
    unfold headerColorProgress
    rw [if_neg (by norm_num), if_neg (by norm_num)]
    norm_num
  have ht24 : headerColorProgress 0.24 = 1 := by
    unfold headerColorProgress
    rw [if_neg (by norm_num), if_neg (by norm_num)]
    norm_num
  have hlt24 : logoTransitionProgress 0.24 = 4 := by
    unfold logoTransitionProgress
    norm_num
  refine ⟨?_, ?_, ?_, ?_, ?_, ?_, ?_⟩
  · unfold headerColorValue
    rw [ht18]
    exact round_eval _ 255 (by norm_num) (by norm_num)
  · unfold headerColorValue
    rw [ht21]
    exact round_eval _ 128 (by norm_num) (by norm_num)
  · unfold headerColorValue
    rw [ht24]
    exact round_eval _ 0 (by norm_num) (by norm_num)
  · intro p
    unfold headerColorValue
    obtain ⟨h0, h1⟩ := headerColorProgress_mem p
    exact round_mem_0_255 (by nlinarith) (by nlinarith)
  · unfold logoColorValue
    rw [if_pos (by norm_num)]
    have h : logoTransitionProgress 0.2 = 0 := by
      unfold logoTransitionProgress
      norm_num
    rw [h]
    exact round_eval _ 255 (by norm_num) (by norm_num)
  · unfold logoColorValue
    rw [if_pos (by norm_num), hlt24]
    exact round_eval _ (-765) (by norm_num) (by norm_num)
  · unfold logoColorValue
    rw [if_pos (by norm_num), hlt24]
    rw [round_eval _ (-765) (by norm_num) (by norm_num)]
    norm_num

/-- C5: the circular mask radius is exactly 0% before the window start 0.2,
exactly 100% after the window end 0.28, affine (`1250 p - 250`, i.e. linear)
inside the window, and the end-to-end progress sequence
`[0, 0.1, 0.2, 0.24, 0.28, 0.5]` yields radii `[0, 0, 0, 50, 100, 100]`. -/
theorem C5_mask_reveal :
    (∀ p, p < 0.2 → maskSize p = 0) ∧
    (∀ p, 0.28 < p → maskSize p = 100) ∧
    (∀ p, 0.2 ≤ p → p ≤ 0.28 → maskSize p = 1250 * p - 250) ∧
    [(0 : ℚ), 0.1, 0.2, 0.24, 0.28, 0.5].map maskSize =
      [0, 0, 0, 50, 100, 100] := by
  have hlo : ∀ p : ℚ, p < 0.2 → maskSize p = 0 := by
    intro p h
    unfold maskSize
    rw [if_pos h]
  have hhi : ∀ p : ℚ, 0.28 < p → maskSize p = 100 := by
    intro p h
    unfold maskSize
    rw [if_neg (not_lt.mpr (by linarith)), if_pos h]
  have hmid : ∀ p : ℚ, 0.2 ≤ p → p ≤ 0.28 → maskSize p = 1250 * p - 250 := by
    intro p h1 h2
    unfold maskSize
    rw [if_neg (not_lt.mpr h1), if_neg (not_lt.mpr h2)]
    field_simp
    ring
  refine ⟨hlo, hhi, hmid, ?_⟩
  show [maskSize 0, maskSize 0.1, maskSize 0.2, maskSize 0.24, maskSize 0.28,
    maskSize 0.5] = [0, 0, 0, 50, 100, 100]
  rw [hlo 0 (by norm_num), hlo 0.1 (by norm_num),
    hmid 0.2 (by norm_num) (by norm_num), hmid 0.24 (by norm_num) (by norm_num),
    hmid 0.28 (by norm_num) (by norm_num), hhi 0.5 (by norm_num)]
  norm_num

/-- C5 witness: the boundary and in-window conjuncts applied at the concrete
inputs 0.1 and 0.24. -/
theorem C5_mask_reveal_witness :
    maskSize 0.1 = 0 ∧ maskSize 0.24 = 1250 * 0.24 - 250 :=
  ⟨C5_mask_reveal.1 0.1 (by norm_num),
   C5_mask_reveal.2.2.1 0.24 (by norm_num) (by norm_num)⟩

/-- C6: with the model loaded, the main handler's entrance rule puts the model
at `FinalPosition.y - ModelExtent.y * 1.5` at progress 0, at exactly
`FinalPosition.y` for every progress at or above the entrance window end 0.05,
and the `setupModel` start position sits exactly `1.5` times the vertical
extent below the final position. -/
theorem C6_entrance_animation :
    (∀ finalY sizeY : ℚ, entranceYMain finalY sizeY 0 = finalY - sizeY * 1.5) ∧
    (∀ finalY sizeY p : ℚ, 0.05 ≤ p → entranceYMain finalY sizeY p = finalY) ∧
    (∀ finalY sizeY : ℚ, startPositionY finalY sizeY = finalY - sizeY * 1.5 ∧
      finalY - startPositionY finalY sizeY = sizeY * 1.5) := by
  refine ⟨?_, ?_, ?_⟩
  · intro f s
    unfold entranceYMain entranceProgressMain
    norm_num
  · intro f s p h
    unfold entranceYMain entranceProgressMain
    rw [min_eq_left ((one_le_div (by norm_num)).mpr (by linarith)),
      max_eq_right (by norm_num)]
    ring
  · intro f s
    unfold startPositionY
    exact ⟨rfl, by ring⟩

/-- C6 witness: the steady-state conjunct applied at `p = 1` with final
position 2 and vertical extent 3. -/
theorem C6_entrance_animation_witness : entranceYMain 2 3 1 = 2 :=
  C6_entrance_animation.2.1 2 3 1 (by norm_num)

/-! ## Entrance saturation helpers -/

lemma entranceYMain_final {f s p : ℚ} (h : 0.05 ≤ p) : entranceYMain f s p = f := by
  unfold entranceYMain entranceProgressMain
  rw [min_eq_left ((one_le_div (by norm_num)).mpr (by linarith)),
    max_eq_right (by norm_num)]
  ring

lemma applyEntranceY_final {f s p : ℚ} (h : 0.12 ≤ p) : applyEntranceY f s p = f := by
  unfold applyEntranceY
  rw [min_eq_left ((one_le_div (by norm_num)).mpr (by linarith)),
    max_eq_right (by norm_num)]
  ring

/-- C7 counterexample: in the current source, setting progress to `1/2`
(inside the visibility window `[0.45, 0.85]`) from a cold start issues a
fire-and-forget `play()` command, whose synchronous effect leaves the timeline
head at 0 — not the claimed partial head value
`clamp((1/2 - 0.45) / (0.85 - 0.45), 0, 1) = 1/8`. -/
theorem C7_tooltip_counterexample :
    tooltipCmd (1 / 2) = TimelineCmd.play ∧
    applyCmdSync 0 (tooltipCmd (1 / 2)) = 0 ∧
    specWindowProgress (1 / 2) 0.45 0.85 = 1 / 8 ∧
    applyCmdSync 0 (tooltipCmd (1 / 2)) ≠ specWindowProgress (1 / 2) 0.45 0.85 := by
  have hcmd : tooltipCmd (1 / 2) = TimelineCmd.play := by
    unfold tooltipCmd
    rw [if_pos (by constructor <;> norm_num)]
  have hsync : applyCmdSync 0 (tooltipCmd (1 / 2)) = 0 := by
    rw [hcmd]
    rfl
  have hswp : specWindowProgress (1 / 2) 0.45 0.85 = 1 / 8 := by
    unfold specWindowProgress
    rw [clampQ_of_mem (by norm_num) (by norm_num)]
    norm_num
  refine ⟨hcmd, hsync, hswp, ?_⟩
  rw [hsync, hswp]
  norm_num

/-- C7 (amended): the tooltip timelines are driven by discrete fire-and-forget
commands, not a synchronous scrub: the `onUpdate` callback issues `play` for
progress inside `[0.45, 0.85]` and `reverse` outside, leaving the head
unchanged at call time for every progress value, and the `onRefresh` callback
sets the head to exactly 1 inside `[0.35, 0.45]` and exactly 0 otherwise —
never to a partial window sub-progress. -/
theorem C7_tooltip_discrete :
    (∀ p, applyCmdSync 0 (tooltipCmd p) = 0) ∧
    (∀ p, tooltipRefreshHead p = 0 ∨ tooltipRefreshHead p = 1) ∧
    (∀ p, 0.45 ≤ p → p ≤ 0.85 → tooltipCmd p = TimelineCmd.play) ∧
    (∀ p, p < 0.45 → tooltipCmd p = TimelineCmd.reverse) ∧
    (∀ p, 0.85 < p → tooltipCmd p = TimelineCmd.reverse) ∧
    (∀ p, 0.35 ≤ p → p ≤ 0.45 → tooltipRefreshHead p = 1) ∧
    (∀ p, p < 0.35 → tooltipRefreshHead p = 0) := by
  refine ⟨?_, ?_, ?_, ?_, ?_, ?_, ?_⟩
  · intro p
    unfold tooltipCmd
    split <;> rfl
  · intro p
    unfold tooltipRefreshHead
    split
    · exact Or.inr rfl
    · exact Or.inl rfl
  · intro p h1 h2
    unfold tooltipCmd
    rw [if_pos ⟨h1, h2⟩]
  · intro p h
    unfold tooltipCmd
    rw [if_neg (fun hc => absurd hc.1 (not_le.mpr h))]
  · intro p h
    unfold tooltipCmd
    rw [if_neg (fun hc => absurd hc.2 (not_le.mpr h))]
  · intro p h1 h2
    unfold tooltipRefreshHead
    rw [if_pos ⟨h1, h2⟩]
  · intro p h
    unfold tooltipRefreshHead
    rw [if_neg (fun hc => absurd hc.1 (not_le.mpr h))]

/-- C7 witness: the play and refresh conjuncts applied at the concrete
progress values 0.5 and 0.4. -/
theorem C7_tooltip_discrete_witness :
    tooltipCmd 0.5 = TimelineCmd.play ∧ tooltipRefreshHead 0.4 = 1 :=
  ⟨C7_tooltip_discrete.2.2.1 0.5 (by norm_num) (by norm_num),
   C7_tooltip_discrete.2.2.2.2.2.1 0.4 (by norm_num) (by norm_num)⟩

/-- C8 counterexample: with `FinalPosition.y = 0`, `ModelExtent.y = 1` and the
page already scrolled to progress 1, the load success callback leaves the
model at the entrance start `-(3/2)` (below the viewport), while the correct
entrance state at progress 1 — computed by either entrance window — is 0, so
the claimed immediate recomputation at the current progress does not happen. -/
theorem C8_load_counterexample :
    modelLoadY 0 1 1 = -(3 / 2) ∧
    entranceYMain 0 1 1 = 0 ∧
    applyEntranceY 0 1 1 = 0 ∧
    modelLoadY 0 1 1 ≠ entranceYMain 0 1 1 := by
  have h1 : modelLoadY 0 1 1 = -(3 / 2) := by
    unfold modelLoadY startPositionY
    norm_num
  have h2 : entranceYMain 0 1 1 = 0 := entranceYMain_final (by norm_num)
  have h3 : applyEntranceY 0 1 1 = 0 := applyEntranceY_final (by norm_num)
  refine ⟨h1, h2, h3, ?_⟩
  rw [h1, h2]
  norm_num

/-- C8 (amended): the load success callback runs `setupModel` only, placing
the model at the entrance start `FinalPosition.y - 1.5 * ModelExtent.y` — the
progress-0 entrance state — no matter what the current scroll progress is;
the recomputation at the current progress (`applyEntranceAnimationState`,
which recovers `FinalPosition.y` for progress at or past 0.12) runs only in
the resize handler, not on load. -/
theorem C8_load_ignores_progress :
    (∀ finalY sizeY p q : ℚ,
      modelLoadY finalY sizeY p = modelLoadY finalY sizeY q) ∧
    (∀ finalY sizeY p : ℚ,
      modelLoadY finalY sizeY p = entranceYMain finalY sizeY 0) ∧
    (∀ finalY sizeY p : ℚ, 0.12 ≤ p → applyEntranceY finalY sizeY p = finalY) := by
  refine ⟨fun f s p q => rfl, ?_, fun f s p h => applyEntranceY_final h⟩
  intro f s p
  unfold modelLoadY startPositionY entranceYMain entranceProgressMain
  norm_num

/-- C8 witness: the resize-path conjunct applied at progress 1 with final
position 5 and vertical extent 2. -/
theorem C8_load_ignores_progress_witness : applyEntranceY 5 2 1 = 5 :=
  C8_load_ignores_progress.2.2 5 2 1 (by norm_num)

/-- C9: the scroll-update path and the resize path compute the model y with
different entrance windows (divisor 0.05 versus the stale 0.12): at progress
`1/20` with `FinalPosition.y = 0` and `ModelExtent.y = 1` the scroll path has
finished the entrance (y = 0) while the resize path is still mid-entrance
(y = -7/8), refuting the claimed pure re-derivation equivalence. -/
theorem C9_entrance_window_divergence :
    entranceYMain 0 1 (1 / 20) = 0 ∧
    applyEntranceY 0 1 (1 / 20) = -(7 / 8) ∧
    entranceYMain 0 1 (1 / 20) ≠ applyEntranceY 0 1 (1 / 20) := by
  have h1 : entranceYMain 0 1 (1 / 20) = 0 := entranceYMain_final (by norm_num)
  have h2 : applyEntranceY 0 1 (1 / 20) = -(7 / 8) := by
    unfold applyEntranceY
    rw [min_eq_right (by norm_num : ((1 : ℚ) / 20) / 0.12 ≤ 1),
      max_eq_right (by norm_num : (0 : ℚ) ≤ ((1 : ℚ) / 20) / 0.12)]
    norm_num
  refine ⟨h1, h2, ?_⟩
  rw [h1, h2]
  norm_num

lemma modelProgress_saturated {p : ℚ} (h : 0.1 ≤ p) : modelProgress p = 1 := by
  unfold modelProgress
  rw [min_eq_left ((one_le_div (by norm_num)).mpr (by linarith)),
    max_eq_right (by norm_num)]

/-- C10: the container scale assigned by the main handler is exactly 0.8 for
progress below 0.15 and exactly 1 at or above it, never an intermediate
value: the gradual-scaling sub-progress (window `[0.06, 0.10]`) has already
saturated to 1 before the 0.15 branch switches, so the gradual branch is
dead. -/
theorem C10_container_scale_binary :
    (∀ p : ℚ, modelScale p = if p < 0.15 then 0.8 else 1) ∧
    (∀ p : ℚ, 0.1 ≤ p → modelProgress p = 1) ∧
    (∀ p : ℚ, modelScale p = 0.8 ∨ modelScale p = 1) := by
  have hscale : ∀ p : ℚ, modelScale p = if p < 0.15 then 0.8 else 1 := by
    intro p
    unfold modelScale
    rcases lt_or_le p 0.15 with h | h
    · rw [if_pos h, if_pos h]
    · rw [if_neg (not_lt.mpr h), if_neg (not_lt.mpr h),
        modelProgress_saturated (by linarith)]
      norm_num
  refine ⟨hscale, fun p h => modelProgress_saturated h, ?_⟩
  intro p
  rw [hscale p]
  split
  · exact Or.inl rfl
  · exact Or.inr rfl

/-- C10 witness: the saturation conjunct applied at progress 0.2 (the
sub-progress is already 1 well before the scale branch switches). -/
theorem C10_container_scale_binary_witness : modelProgress 0.2 = 1 :=
  C10_container_scale_binary.2.1 0.2 (by norm_num)

end Scene
